import Mathlib

/-!
Verification of the mockdown expectation engine (src/mockdown/src/mockdown.rs).

The embedding follows the source directly:
* `Ty`/`Ty.denote` model the concrete Rust types a test uses with the engine;
  `Ty.name` mirrors `std::any::type_name` output for those types.
* `Dyn` models `Box<dyn Any>`: a value paired with its runtime type tag;
  `Dyn.asType` is `AsType::as_type` (a `downcast` whose error is the
  expectation's `type_name()`).
* `ExpectEntry` models one boxed `dyn Expect` built from a concrete
  `fn(T) -> U`; `ExpectEntry.mock` is `Expect::mock` and
  `ExpectEntry.on_mock` is `<dyn Expect>::on_mock`.  `mock` additionally
  returns a `Bool` recording whether the wrapped function was applied; this
  instrumentation flag is threaded through untouched and never influences
  any result.
* The `Vec<Box<dyn Expect>>` behind `ExpectStore` is a `List ExpectEntry`;
  `add_expect` inserts at index 0 and `next_expect` pops the last element,
  exactly as in the source.  `ExpectStore.drop` models `impl Drop`, with
  `none` standing for the panic.
* `Mockdown.on_mock` is the facade method, returning the result, the queue
  left behind, and the instrumentation flag.
* The `StaticMock` registry (`HashMap<ThreadId, M>` behind a lock) is a
  function from thread identities to optional per-thread queues; `none`
  in `StaticMock.on_mock`'s result models the `unwrap()` panic.
-/

/-- Runtime type tags: the concrete Rust types appearing in the engine's use.
Each expectation privately remembers its tags, as `TypeId` does in Rust. -/
inductive Ty : Type where
  | int
  | str
  | bool
  | unit
deriving DecidableEq, Repr, Fintype

/-- Interpretation of a type tag as the Lean type modelling the Rust type. -/
def Ty.denote : Ty → Type
  | .int => Int
  | .str => String
  | .bool => Bool
  | .unit => Unit

/-- The `std::any::type_name` string of the underlying Rust type. -/
def Ty.name : Ty → String
  | .int => "i32"
  | .str => "alloc::string::String"
  | .bool => "bool"
  | .unit => "()"

/-- The `std::any::type_name::<fn(T) -> U>()` string. -/
def sigName (t u : Ty) : String :=
  "fn(" ++ t.name ++ ") -> " ++ u.name

/-- A type-erased value: `Box<dyn Any>`, i.e. a value tagged with its
runtime type. -/
structure Dyn where
  ty : Ty
  val : ty.denote

/-- `AsAny::as_any`: erase a typed value. -/
def asAny (t : Ty) (v : t.denote) : Dyn := ⟨t, v⟩

/-- One boxed `dyn Expect`: built by `impl<T, U> Expect for fn(T) -> U`,
it remembers its concrete input tag, output tag and the wrapped mapping. -/
structure ExpectEntry where
  inTy : Ty
  outTy : Ty
  fn : inTy.denote → outTy.denote

/-- `Expect::type_name` for an entry built from `fn(T) -> U`. -/
def ExpectEntry.typeName (e : ExpectEntry) : String :=
  sigName e.inTy e.outTy

/-- `AsType::as_type` on `Box<dyn Any>`: `downcast::<T>()`, with the failure
mapped to the expectation's `type_name()`. -/
def Dyn.asType (d : Dyn) (t : Ty) (e : ExpectEntry) : Except String t.denote :=
  if h : d.ty = t then .ok (h ▸ d.val) else .error e.typeName

/-- `Expect::mock` for `fn(T) -> U`: downcast the erased input to `T`,
apply the function, re-erase the output.  The `Bool` records whether the
wrapped function was applied (instrumentation only). -/
def ExpectEntry.mock (e : ExpectEntry) (when : Dyn) : (Except String Dyn) × Bool :=
  match when.asType e.inTy e with
  | .error s => (.error s, false)
  | .ok v => (.ok (asAny e.outTy (e.fn v)), true)

/-- `<dyn Expect>::on_mock::<T, U>`: run `mock` on the erased input, then
downcast the erased output to the caller's `U`. -/
def ExpectEntry.on_mock (e : ExpectEntry) (t u : Ty) (when : t.denote) :
    (Except String u.denote) × Bool :=
  match e.mock (asAny t when) with
  | (.error s, b) => (.error s, b)
  | (.ok d, b) => (d.asType u e, b)

/-- The queue behind `ExpectStore`: the `Vec<Box<dyn Expect>>` guarded by
the `Arc<Mutex<..>>`. -/
abbrev Queue := List ExpectEntry

/-- `ExpectStore::add_expect`: `insert(0, ..)` — new entries go to the
front of the `Vec`. -/
def ExpectStore.add_expect (e : ExpectEntry) (q : Queue) : Queue :=
  e :: q

/-- `ExpectStore::next_expect`: `Vec::pop` — remove and return the last
element, if any, together with the remaining queue. -/
def ExpectStore.next_expect (q : Queue) : Option ExpectEntry × Queue :=
  match q.getLast? with
  | none => (none, q)
  | some e => (some e, q.dropLast)

/-- `ExpectStore::clear`. -/
def ExpectStore.clear (_ : Queue) : Queue := []

/-- `ExpectStore::is_empty`. -/
def ExpectStore.is_empty (q : Queue) : Bool := q.isEmpty

/-- `impl Drop for ExpectStore`: panics (modelled by `none`) when the queue
is non-empty, otherwise completes normally. -/
def ExpectStore.drop (q : Queue) : Option Unit :=
  if ExpectStore.is_empty q then some () else none

/-- `type_error::<T, U>(expect)`: the diagnostic message, with the caller's
signature as the `received` half (Rust's `{:?}` puts quotes around both). -/
def type_error (t u : Ty) (expect : String) : String :=
  "expect type mismatch: expecting \"" ++ expect ++ "\", received \""
    ++ sigName t u ++ "\""

/-- Result of one `Mockdown::on_mock` call: the returned `Result`, the queue
state after the call, and the instrumentation flag saying whether a wrapped
mapping was invoked. -/
structure MockOutcome (u : Ty) where
  result : Except String u.denote
  queue : Queue
  invoked : Bool

/-- `Mockdown::on_mock::<T, U>(args)`: dequeue the next expectation
(`NoExpectation` message with `"nothing"` if the queue is empty), run it,
and wrap any entry-level error through `type_error`. -/
def Mockdown.on_mock (t u : Ty) (args : t.denote) (q : Queue) : MockOutcome u :=
  match ExpectStore.next_expect q with
  | (none, q1) => ⟨.error (type_error t u "nothing"), q1, false⟩
  | (some e, q1) =>
    match e.on_mock t u args with
    | (.error s, b) => ⟨.error (type_error t u s), q1, b⟩
    | (.ok v, b) => ⟨.ok v, q1, b⟩

/-- `Mockdown::expect` (it delegates to `add_expect` on the store). -/
def Mockdown.expect (e : ExpectEntry) (q : Queue) : Queue :=
  ExpectStore.add_expect e q

/-- Registering a whole sequence of expectations, first call first. -/
def registerAll (es : List ExpectEntry) : Queue :=
  es.foldl (fun q e => Mockdown.expect e q) []

/-- The sequence of entries obtained by repeatedly calling `next_expect`
until the queue is empty. -/
def consumeAll (q : Queue) : List ExpectEntry :=
  match h : q.getLast? with
  | none => []
  | some e => e :: consumeAll q.dropLast
termination_by q.length
decreasing_by
  have hq : q ≠ [] := by
    intro hnil
    rw [hnil] at h
    simp at h
  simpa [List.length_dropLast] using Nat.sub_lt (List.length_pos.mpr hq) Nat.one_pos

/-- A shared `ExpectStore`: `queue` is the `Vec` behind the
`Arc<Mutex<..>>` and `handles` counts the live `ExpectStore` values that
point at it (`impl Clone for ExpectStore` only clones the `Arc`, so every
handle views the same queue). -/
structure SharedStore where
  queue : Queue
  handles : Nat

/-- `ExpectStore::clone`: a new handle to the same queue. -/
def SharedStore.cloneStore (s : SharedStore) : SharedStore :=
  { s with handles := s.handles + 1 }

/-- Dropping one handle: Rust runs `ExpectStore::drop` on every handle
drop, and the drop body checks only `is_empty` — it does not consult the
reference count.  `none` models the panic. -/
def SharedStore.dropHandle (s : SharedStore) : Option SharedStore :=
  match ExpectStore.drop s.queue with
  | none => none
  | some _ => some { s with handles := s.handles - 1 }

/-- Thread identities (`std::thread::ThreadId`). -/
abbrev ThreadId := Nat

/-- The `StaticMock` registry state: the `HashMap<ThreadId, M>` behind the
lock, mapping each thread identity that has an entry to its instance's
queue (a `Mockdown` instance is a handle bundling one queue). -/
def Registry := ThreadId → Option Queue

/-- `StaticMock::static_mock`: insert a fresh default instance when the
calling thread has none, then `clone().clear()` the stored instance — the
clone shares the stored queue, so the clear empties the registry's queue
for that thread.  Returns the new registry and the thread id identifying
the returned handle's queue. -/
def StaticMock.static_mock (reg : Registry) (id : ThreadId) : Registry × ThreadId :=
  let reg1 : Registry := fun j =>
    if (reg id).isSome then reg j
    else if j = id then some [] else reg j
  let reg2 : Registry := fun j => if j = id then some (ExpectStore.clear []) else reg1 j
  (reg2, id)

/-- Registering an expectation through a handle obtained from
`static_mock`: `Mockdown::expect` on the handle mutates the shared queue
stored in the registry under that thread's identity. -/
def StaticMock.expectOn (reg : Registry) (id : ThreadId) (e : ExpectEntry) : Registry :=
  fun j => if j = id then (reg id).map (Mockdown.expect e) else reg j

/-- `StaticMock::on_mock::<T, U>(args)`: look up the calling thread's
instance — `map.get(&id).unwrap()` panics (modelled by `none`) when the
thread has no entry — and delegate to `Mockdown::on_mock`. -/
def StaticMock.on_mock (t u : Ty) (args : t.denote) (reg : Registry) (id : ThreadId) :
    Option (Except String u.denote × Registry) :=
  match reg id with
  | none => none
  | some q =>
    let r := Mockdown.on_mock t u args q
    some (r.result, fun j => if j = id then some r.queue else reg j)

/-! ### Helper lemmas -/

theorem foldl_expect_eq (es : List ExpectEntry) (q : Queue) :
    es.foldl (fun q e => Mockdown.expect e q) q = es.reverse ++ q := by
  induction es generalizing q with
  | nil => simp
  | cons e es ih =>
    simp [Mockdown.expect, ExpectStore.add_expect, ih, List.append_assoc]

theorem registerAll_eq_reverse (es : List ExpectEntry) :
    registerAll es = es.reverse := by
  simpa using foldl_expect_eq es []

theorem consumeAll_nil : consumeAll [] = [] := by
  rw [consumeAll]
  rfl

theorem consumeAll_concat (q : Queue) (e : ExpectEntry) :
    consumeAll (q ++ [e]) = e :: consumeAll q := by
  rw [consumeAll]
  split
  · next h =>
    rw [List.getLast?_concat] at h
    exact absurd h (by simp)
  · next e' h =>
    rw [List.getLast?_concat] at h
    cases h
    rw [List.dropLast_concat]

theorem consumeAll_eq_reverse (q : Queue) : consumeAll q = q.reverse := by
  induction q using List.reverseRecOn with
  | nil => exact consumeAll_nil
  | append_singleton q e ih => rw [consumeAll_concat, ih]; simp

theorem sigName_infix_type_error (t u : Ty) (s : String) :
    (sigName t u).data <:+: (type_error t u s).data := by
  refine ⟨("expect type mismatch: expecting \"" ++ s ++ "\", received \"").data,
    ("\"" : String).data, ?_⟩
  simp [type_error, List.append_assoc]

theorem expect_infix_type_error (t u : Ty) (s : String) :
    s.data <:+: (type_error t u s).data := by
  refine ⟨("expect type mismatch: expecting \"" : String).data,
    ("\", received \"" ++ sigName t u ++ "\"").data, ?_⟩
  simp [type_error, List.append_assoc]

theorem mock_input_mismatch (e : ExpectEntry) (t : Ty) (v : t.denote)
    (hne : e.inTy ≠ t) : e.mock (asAny t v) = (.error e.typeName, false) := by
  unfold ExpectEntry.mock asAny Dyn.asType
  rw [dif_neg (fun h => hne h.symm)]

theorem mock_input_match (e : ExpectEntry) (v : e.inTy.denote) :
    e.mock (asAny e.inTy v) = (.ok (asAny e.outTy (e.fn v)), true) := by
  unfold ExpectEntry.mock asAny Dyn.asType
  rw [dif_pos rfl]

theorem entry_on_mock_input_mismatch (e : ExpectEntry) (t u : Ty) (v : t.denote)
    (hne : e.inTy ≠ t) : e.on_mock t u v = (.error e.typeName, false) := by
  unfold ExpectEntry.on_mock
  rw [mock_input_mismatch e t v hne]

theorem entry_on_mock_output_mismatch (e : ExpectEntry) (u : Ty) (v : e.inTy.denote)
    (hne : e.outTy ≠ u) : e.on_mock e.inTy u v = (.error e.typeName, true) := by
  unfold ExpectEntry.on_mock
  rw [mock_input_match e v]
  dsimp only [asAny, Dyn.asType]
  rw [dif_neg hne]

theorem next_expect_concat (q : Queue) (e : ExpectEntry) :
    ExpectStore.next_expect (q ++ [e]) = (some e, q) := by
  unfold ExpectStore.next_expect
  rw [List.getLast?_concat, List.dropLast_concat]

/-! ### Claim theorems -/

/-- Claim C1: for every sequence of `expect` calls on one Mockdown
instance, successive `on_mock` calls consume the registered expectations
in exact registration order (FIFO), regardless of the concrete types of
each expectation: the entries dequeued by repeated `next_expect` are the
registration sequence itself, and the first expectation registered is the
first one dequeued. -/
theorem c1_fifo_registration_order (es : List ExpectEntry) :
    consumeAll (registerAll es) = es ∧
    ∀ e rest, (ExpectStore.next_expect (registerAll (e :: rest))).1 = some e := by
  constructor
  · rw [registerAll_eq_reverse, consumeAll_eq_reverse, List.reverse_reverse]
  · intro e rest
    rw [registerAll_eq_reverse, List.reverse_cons, next_expect_concat]

/-- Claim C3: `on_mock::<T, U>` on an empty queue returns the
no-expectation error (the total function returns a `Result`; it cannot
panic), the queue stays empty, no mapping is invoked, and the message
names the caller's expected signature `fn(T) -> U`. -/
theorem c3_empty_queue_no_expectation (t u : Ty) (args : t.denote) :
    Mockdown.on_mock t u args [] =
      ⟨.error (type_error t u "nothing"), [], false⟩ ∧
    (sigName t u).data <:+: (type_error t u "nothing").data :=
  ⟨rfl, sigName_infix_type_error t u "nothing"⟩

/-- Claim C4: destroying an `ExpectStore` whose queue is non-empty panics
(`drop` is `none`), and destroying an empty store completes normally;
stated both for raw queues and through the register/consume pipeline. -/
theorem c4_drop_nonempty_panics (q : Queue) (es : List ExpectEntry) :
    (ExpectStore.drop q = none ↔ q ≠ []) ∧
    ExpectStore.drop [] = some () ∧
    (ExpectStore.drop (registerAll es) = none ↔ es ≠ []) := by
  have hgen : ∀ l : Queue, ExpectStore.drop l = none ↔ l ≠ [] := by
    intro l
    unfold ExpectStore.drop ExpectStore.is_empty
    cases l <;> simp
  refine ⟨hgen q, rfl, ?_⟩
  rw [hgen (registerAll es), registerAll_eq_reverse]
  simp

/-- A sample expectation wrapping `fn(i32) -> i32` (the identity). -/
def sampleIntEntry : ExpectEntry := ⟨Ty.int, Ty.int, fun v => v⟩

/-- A sample expectation wrapping `fn(i32) -> alloc::string::String`. -/
def sampleIntStrEntry : ExpectEntry := ⟨Ty.int, Ty.str, fun _ => "42"⟩

/-- Claim C2: `on_mock::<T, U>` on a non-empty queue whose next (oldest)
entry has an input type other than `T` returns the type-mismatch error,
the wrapped mapping is never invoked, and the message contains both the
entry's signature string and the caller's signature string. -/
theorem c2_input_mismatch_no_invoke (t u : Ty) (args : t.denote)
    (e : ExpectEntry) (q : Queue) (hne : e.inTy ≠ t) :
    (Mockdown.on_mock t u args (q ++ [e])).result
        = .error (type_error t u e.typeName) ∧
    (Mockdown.on_mock t u args (q ++ [e])).invoked = false ∧
    e.typeName.data <:+: (type_error t u e.typeName).data ∧
    (sigName t u).data <:+: (type_error t u e.typeName).data := by
  have hrun :
      Mockdown.on_mock t u args (q ++ [e])
        = ⟨.error (type_error t u e.typeName), q, false⟩ := by
    unfold Mockdown.on_mock
    rw [next_expect_concat]
    dsimp only
    rw [entry_on_mock_input_mismatch e t u args hne]
  rw [hrun]
  exact ⟨rfl, rfl, expect_infix_type_error t u e.typeName,
    sigName_infix_type_error t u e.typeName⟩

theorem c2_input_mismatch_no_invoke_witness :
    (Mockdown.on_mock Ty.str Ty.int "hi" [sampleIntEntry]).result
        = .error (type_error Ty.str Ty.int sampleIntEntry.typeName) ∧
    (Mockdown.on_mock Ty.str Ty.int "hi" [sampleIntEntry]).invoked = false :=
  have h := c2_input_mismatch_no_invoke Ty.str Ty.int "hi" sampleIntEntry []
    (by decide)
  ⟨h.1, h.2.1⟩

/-- Any two type-mismatch messages reported to the same caller signature
`fn(T) -> U` differ whenever one dequeued entry's input type equals `T`
and the other's does not: the entry signature embedded in the message
separates the output-end mismatch from the input-end mismatch. -/
theorem type_error_output_ne_input (t u b a b' : Ty) (h : a ≠ t) :
    type_error t u (sigName t b) ≠ type_error t u (sigName a b') := by
  revert h
  revert t u b a b'
  decide

/-- A sample expectation wrapping `fn(alloc::string::String) -> i32`. -/
def sampleStrIntEntry : ExpectEntry := ⟨Ty.str, Ty.int, fun _ => (0 : Int)⟩

/-- Claim C5: when the dequeued entry's input type matches the caller's
`T` but its output type differs from `U`, the call fails with a
type-mismatch error, and that error differs from the error of any
input-mismatch call with the same caller signature — so the failure is
attributable to the output end. -/
theorem c5_output_mismatch_distinct (t u : Ty) (args : t.denote)
    (e eIn : ExpectEntry) (q : Queue)
    (hin : e.inTy = t) (hout : e.outTy ≠ u) (hin2 : eIn.inTy ≠ t) :
    (Mockdown.on_mock t u args (q ++ [e])).result
        = .error (type_error t u e.typeName) ∧
    (Mockdown.on_mock t u args (q ++ [eIn])).result
        = .error (type_error t u eIn.typeName) ∧
    type_error t u e.typeName ≠ type_error t u eIn.typeName := by
  subst hin
  refine ⟨?_, ?_, ?_⟩
  · unfold Mockdown.on_mock
    rw [next_expect_concat]
    dsimp only
    rw [entry_on_mock_output_mismatch e u args hout]
  · unfold Mockdown.on_mock
    rw [next_expect_concat]
    dsimp only
    rw [entry_on_mock_input_mismatch eIn e.inTy u args hin2]
  · unfold ExpectEntry.typeName
    exact type_error_output_ne_input e.inTy u e.outTy eIn.inTy eIn.outTy hin2

theorem c5_output_mismatch_distinct_witness :
    type_error Ty.int Ty.int sampleIntStrEntry.typeName
      ≠ type_error Ty.int Ty.int sampleStrIntEntry.typeName :=
  (c5_output_mismatch_distinct Ty.int Ty.int ((0 : Int)) sampleIntStrEntry
    sampleStrIntEntry [] (by decide) (by decide) (by decide)).2.2

/-- Claim C6: `static_mock()` hands back the calling thread's instance
with an empty queue — after the call the registry maps the calling thread
to the empty queue (a fresh default is inserted when the thread had no
entry, and any leftovers are cleared), and no other thread's entry is
touched. -/
theorem c6_static_mock_clears (reg : Registry) (id j : ThreadId) :
    (StaticMock.static_mock reg id).2 = id ∧
    (StaticMock.static_mock reg id).1 id = some [] ∧
    (j ≠ id → (StaticMock.static_mock reg id).1 j = reg j) := by
  refine ⟨rfl, ?_, ?_⟩
  · simp [StaticMock.static_mock, ExpectStore.clear]
  · intro hj
    simp [StaticMock.static_mock, ExpectStore.clear, hj]

theorem c6_static_mock_clears_witness :
    (StaticMock.static_mock (fun _ => none) 0).1 1 = none :=
  (c6_static_mock_clears (fun _ => none) 0 1).2.2 (by decide)

/-- Claim C7: for distinct thread identities, the registry keeps one
queue per identity: registering an expectation through thread A's handle
leaves thread B's registry entry unchanged, and `StaticMock::on_mock`
from B returns the same result and leaves B with the same queue whether
or not A registered. -/
theorem c7_thread_isolation (reg : Registry) (a b : ThreadId)
    (e : ExpectEntry) (t u : Ty) (args : t.denote) (h : a ≠ b) :
    (StaticMock.expectOn reg a e) b = reg b ∧
    (StaticMock.on_mock t u args (StaticMock.expectOn reg a e) b).map
        (fun p => (p.1, p.2 b))
      = (StaticMock.on_mock t u args reg b).map (fun p => (p.1, p.2 b)) := by
  have hb : (StaticMock.expectOn reg a e) b = reg b := by
    simp [StaticMock.expectOn, Ne.symm h]
  refine ⟨hb, ?_⟩
  cases hq : reg b with
  | none => simp [StaticMock.on_mock, hb, hq]
  | some q => simp [StaticMock.on_mock, hb, hq]

theorem c7_thread_isolation_witness :
    (StaticMock.expectOn (fun _ => some []) 0 sampleIntEntry) 1 = some [] :=
  (c7_thread_isolation (fun _ => some []) 0 1 sampleIntEntry Ty.int Ty.int ((0 : Int))
    (by decide)).1

/-- Claim C8: an `on_mock` call on a non-empty queue that returns a
type-mismatch error still consumes the dequeued expectation: the queue
after the call is the original minus its oldest entry, one shorter — the
mismatched entry is not restored. -/
theorem c8_error_still_consumes (t u : Ty) (args : t.denote) (q : Queue)
    (m : String) (hq : q ≠ [])
    (hr : (Mockdown.on_mock t u args q).result = .error m) :
    (Mockdown.on_mock t u args q).queue = q.dropLast ∧
    (Mockdown.on_mock t u args q).queue.length + 1 = q.length := by
  have hlen := List.length_pos.mpr hq
  cases hlast : q.getLast? with
  | none =>
    rw [List.getLast?_eq_none_iff] at hlast
    exact absurd hlast hq
  | some e =>
    have hnext : ExpectStore.next_expect q = (some e, q.dropLast) := by
      unfold ExpectStore.next_expect
      rw [hlast]
    have hqueue : (Mockdown.on_mock t u args q).queue = q.dropLast := by
      unfold Mockdown.on_mock
      rw [hnext]
      dsimp only
      rcases e.on_mock t u args with ⟨res, b⟩
      cases res <;> rfl
    refine ⟨hqueue, ?_⟩
    rw [hqueue, List.length_dropLast]
    omega

theorem c8_error_still_consumes_witness :
    (Mockdown.on_mock Ty.str Ty.int "hi" [sampleIntEntry]).queue = [] :=
  (c8_error_still_consumes Ty.str Ty.int "hi" [sampleIntEntry]
    (type_error Ty.str Ty.int sampleIntEntry.typeName) (by simp) rfl).1

/-- Claim C9: dropping any clone handle of an `ExpectStore` while the
shared queue is non-empty panics, even when other handles to the same
queue still exist: the drop check consults only queue emptiness, never
the reference count. -/
theorem c9_clone_drop_panics (s : SharedStore)
    (hq : s.queue ≠ []) (hh : 2 ≤ s.handles) :
    s.dropHandle = none ∧ 1 ≤ s.handles - 1 := by
  constructor
  · have hdrop : ExpectStore.drop s.queue = none := by
      unfold ExpectStore.drop ExpectStore.is_empty
      cases hcase : s.queue with
      | nil => exact absurd hcase hq
      | cons x xs => rfl
    unfold SharedStore.dropHandle
    rw [hdrop]
  · omega

theorem c9_clone_drop_panics_witness :
    SharedStore.dropHandle ⟨[sampleIntEntry], 2⟩ = none :=
  (c9_clone_drop_panics ⟨[sampleIntEntry], 2⟩ (by simp) (by decide)).1

/-- Claim C10: `StaticMock::on_mock` from a thread identity absent from
the registry panics — the lookup is unwrapped with no fallback, so the
call produces no error result at all (modelled by `none`). -/
theorem c10_unregistered_thread_panics (t u : Ty) (args : t.denote)
    (reg : Registry) (id : ThreadId) (h : reg id = none) :
    StaticMock.on_mock t u args reg id = none := by
  unfold StaticMock.on_mock
  rw [h]

theorem c10_unregistered_thread_panics_witness :
    StaticMock.on_mock Ty.int Ty.int ((0 : Int)) (fun _ => none) 0 = none :=
  c10_unregistered_thread_panics Ty.int Ty.int ((0 : Int)) (fun _ => none) 0 rfl
